import Mathlib

/-!
Verification of the encoding-resolution, lazy text/JSON materialization and
link-following core of `scrapy/http/response/text.py` (class `TextResponse`).

The Python source is shallowly embedded: raw bodies are lists of byte values,
the per-response lazy caches (`_cached_benc`, `_cached_ubody`,
`_cached_decoded_json` and the `memoizemethod_noargs` memo slots) become an
explicit state record threaded through each operation, and every operation
additionally reports how many times it invoked the underlying decode
procedure (`html_to_unicode`) or the JSON deserializer, so that "computed at
most once" claims are provable.  External collaborators that are not part of
the repository (the w3lib encoding helpers, the Python codec machinery,
`json.loads`, the base `Response` class and the parsel query engine) are
abstracted as a record of pure functions `Ext`, except where a claim depends
on their behaviour, in which case they are modelled from the specification
(see the individual doc comments).
-/

namespace ScrapyText

/-- Raw response bodies: sequences of byte values. -/
abbrev Bytes := List Nat

/-- Shallow model of the values produced by Python's `json.loads`.  The
`null` constructor is distinct from a missing cache entry, mirroring the
`_NONE` sentinel used by `TextResponse.json`. -/
inductive JsonValue where
  | null : JsonValue
  | boolean : Bool → JsonValue
  | number : Int → JsonValue
  | str : String → JsonValue
  | arr : List JsonValue → JsonValue
  | obj : List (String × JsonValue) → JsonValue

/-- The root node underlying a parsel `Selector`: either a plain string (the
result of an attribute extraction such as `::attr(href)`), or a markup
element carrying an optional tag name (`none` models a root object with no
`tag` attribute, failing Python's `hasattr(sel.root, "tag")` test) and an
attribute map. -/
inductive SelRoot where
  | strRoot : String → SelRoot
  | elemRoot : Option String → List (String × String) → SelRoot
deriving DecidableEq

/-- Shallow model of a parsel `Selector` as consumed by `_url_from_selector`:
its root node plus the string rendering used in error messages (`f"{sel}"`). -/
structure PSelector where
  root : SelRoot
  render : String
deriving DecidableEq

/-- The `_InvalidSelector` error (a `ValueError` subclass), split by raise
site; each constructor carries the exact message built by the source. -/
inductive InvalidSelector where
  | unsupportedSelector : String → InvalidSelector
  | unsupportedTag : String → InvalidSelector
  | missingHref : String → InvalidSelector
deriving DecidableEq

/-- Modelled from the spec: `w3lib.html.strip_html5_whitespace` is not under
src/; per the spec it trims per HTML5 whitespace-stripping rules, i.e. it
removes leading and trailing ASCII whitespace (space, tab, LF, FF, CR). -/
def isHTML5Whitespace (c : Char) : Bool :=
  c = ' ' || c = '\t' || c = '\n' || c = '\x0c' || c = '\r'

/-- Trim HTML5 whitespace from both ends of a string. -/
def strip_html5_whitespace (s : String) : String :=
  String.mk (((s.data.dropWhile isHTML5Whitespace).reverse.dropWhile
    isHTML5Whitespace).reverse)

/-- Embedding of `_url_from_selector` (text.py lines 304-317): a string root
is trimmed and returned; a root without a tag name fails; a tag other than
`a`/`link` fails naming the tag; a missing `href` fails naming the selector;
otherwise the trimmed `href` value is returned. -/
def _url_from_selector (sel : PSelector) : Except InvalidSelector String :=
  match sel.root with
  | SelRoot.strRoot s => Except.ok (strip_html5_whitespace s)
  | SelRoot.elemRoot tagOpt attrs =>
    match tagOpt with
    | none =>
      Except.error (InvalidSelector.unsupportedSelector
        ("Unsupported selector: " ++ sel.render))
    | some tag =>
      if tag = "a" ∨ tag = "link" then
        match attrs.lookup "href" with
        | none =>
          Except.error (InvalidSelector.missingHref
            ("<" ++ tag ++ "> element has no href attribute: " ++ sel.render))
        | some href => Except.ok (strip_html5_whitespace href)
      else
        Except.error (InvalidSelector.unsupportedTag
          ("Only <a> and <link> elements are supported; got <" ++ tag ++ ">"))

/-- External collaborators of text.py that live outside this repository:
the w3lib detector helpers, the Python codec machinery, `json.loads`, the
base-URL/URL-join helpers and the parsel query engine.  Each is an opaque
pure function; theorems quantify over all of them. -/
structure Ext where
  read_bom : Bytes → Option String
  http_content_type_encoding : String → Option String
  html_body_declared_encoding : Bytes → Option String
  resolve_encoding : String → Option String
  decodes : String → Bytes → Bool
  strictDecode : String → Bytes → String
  lossyDecode : String → Bytes → String
  json_loads : Bytes → Option JsonValue
  pyEncode : String → String → Bytes
  latin1Decode : Bytes → String
  getBaseUrl : String → Bytes → String
  urljoin : String → String → String
  cssQuery : String → List PSelector
  xpathQuery : String → List PSelector

/-- The immutable part of a `TextResponse`: its URL, the `encoding` keyword
popped at construction (`self._encoding`), the raw `Content-Type` header
value if any, and the raw body bytes. -/
structure TextResponse where
  url : String
  encodingArg : Option String
  contentTypeHeader : Option Bytes
  body : Bytes

/-- The mutable per-response lazy caches of `TextResponse`: `_cached_benc`,
`_cached_ubody`, `_cached_decoded_json` (where `none` models the `_NONE`
sentinel) and the three `memoizemethod_noargs` memo slots (outer `none`
means "not yet computed"). -/
structure TRState where
  cached_benc : Option String
  cached_ubody : Option String
  cached_decoded_json : Option JsonValue
  memo_bom : Option (Option String)
  memo_headers : Option (Option String)
  memo_body_declared : Option (Option String)

/-- The cache state of a freshly constructed response: everything empty. -/
def initState : TRState :=
  { cached_benc := none, cached_ubody := none, cached_decoded_json := none,
    memo_bom := none, memo_headers := none, memo_body_declared := none }

/-- Python truthiness of an optional string: `None` and `""` are falsy. -/
def pyTruthy : Option String → Bool
  | none => false
  | some s => decide (s ≠ "")

/-- First-some choice, used where the spec-modelled w3lib internals chain
optional detector results. -/
def oelse : Option String → Option String → Option String
  | some v, _ => some v
  | none, b => b

/-- `TextResponse._DEFAULT_ENCODING`, the class attribute `"ascii"`. -/
def _DEFAULT_ENCODING : String := "ascii"

/-- The `Content-Type` header value decoded as latin-1, as built at both of
its use sites (`to_unicode(self.headers.get(b"Content-Type", b""), "latin-1")`). -/
def ctString (ext : Ext) (r : TextResponse) : String :=
  ext.latin1Decode (r.contentTypeHeader.getD [])

/-- Embedding of the memoized `_bom_encoding` (`read_bom(self.body)[0]`). -/
def _bom_encoding (ext : Ext) (r : TextResponse) (s : TRState) :
    Option String × TRState :=
  match s.memo_bom with
  | some v => (v, s)
  | none =>
    let v := ext.read_bom r.body
    (v, { s with memo_bom := some v })

/-- Embedding of the memoized `_headers_encoding`
(`http_content_type_encoding` of the latin-1-decoded `Content-Type`). -/
def _headers_encoding (ext : Ext) (r : TextResponse) (s : TRState) :
    Option String × TRState :=
  match s.memo_headers with
  | some v => (v, s)
  | none =>
    let v := ext.http_content_type_encoding (ctString ext r)
    (v, { s with memo_headers := some v })

/-- Embedding of the memoized `_body_declared_encoding`
(`html_body_declared_encoding(self.body)`). -/
def _body_declared_encoding (ext : Ext) (r : TextResponse) (s : TRState) :
    Option String × TRState :=
  match s.memo_body_declared with
  | some v => (v, s)
  | none =>
    let v := ext.html_body_declared_encoding r.body
    (v, { s with memo_body_declared := some v })

/-- Embedding of `_declared_encoding`: the Python expression
`self._encoding or self._bom_encoding() or self._headers_encoding() or
self._body_declared_encoding()`, with Python short-circuiting and
truthiness (an empty string is falsy and skipped). -/
def _declared_encoding (ext : Ext) (r : TextResponse) (s : TRState) :
    Option String × TRState :=
  if pyTruthy r.encodingArg then (r.encodingArg, s)
  else
    let p1 := _bom_encoding ext r s
    if pyTruthy p1.1 then p1
    else
      let p2 := _headers_encoding ext r p1.2
      if pyTruthy p2.1 then p2
      else
        _body_declared_encoding ext r p2.2

/-- Embedding of `_auto_detect_fun`: try `_DEFAULT_ENCODING`, `"utf-8"`,
`"cp1252"` in order; on the first whose decode does not raise, return
`resolve_encoding` of it; if all three fail, return `None`. -/
def _auto_detect_fun (ext : Ext) (t : Bytes) : Option String :=
  if ext.decodes _DEFAULT_ENCODING t then ext.resolve_encoding _DEFAULT_ENCODING
  else if ext.decodes "utf-8" t then ext.resolve_encoding "utf-8"
  else if ext.decodes "cp1252" t then ext.resolve_encoding "cp1252"
  else none

/-- Modelled from the spec: `w3lib.encoding.html_to_unicode` is not under
src/.  Per the spec it determines an encoding from the BOM, the
content-type hint, an in-body declaration or the supplied auto-detect
function, falls back to the supplied default encoding when none answer,
and decodes the body with the chosen encoding, degrading to a lossy decode
rather than raising when a strict decode would error.  It returns the
chosen encoding together with the decoded text. -/
def html_to_unicode (ext : Ext) (contentTypeHeader : String) (body : Bytes)
    (autoDetect : Option (Bytes → Option String)) (defaultEncoding : String) :
    String × String :=
  let declared :=
    oelse (ext.read_bom body)
      (oelse (ext.http_content_type_encoding contentTypeHeader)
        (ext.html_body_declared_encoding body))
  let enc :=
    match declared with
    | some e => some e
    | none =>
      match autoDetect with
      | some f => f body
      | none => none
  let finalEnc := enc.getD defaultEncoding
  (finalEnc,
    if ext.decodes finalEnc body then ext.strictDecode finalEnc body
    else ext.lossyDecode finalEnc body)

/-- Embedding of `_body_inferred_encoding`: on a cache miss, run
`html_to_unicode` with the content-type hint, `_auto_detect_fun` and the
default encoding, and populate both `_cached_benc` and `_cached_ubody`
(the shared decode-cache slot).  The third component counts
`html_to_unicode` invocations. -/
def _body_inferred_encoding (ext : Ext) (r : TextResponse) (s : TRState) :
    String × TRState × Nat :=
  match s.cached_benc with
  | some b => (b, s, 0)
  | none =>
    let p := html_to_unicode ext (ctString ext r) r.body
      (some (_auto_detect_fun ext)) _DEFAULT_ENCODING
    (p.1, { s with cached_benc := some p.1, cached_ubody := some p.2 }, 1)

/-- Embedding of the `encoding` property:
`self._declared_encoding() or self._body_inferred_encoding()`. -/
def encodingOp (ext : Ext) (r : TextResponse) (s : TRState) :
    String × TRState × Nat :=
  let p := _declared_encoding ext r s
  if pyTruthy p.1 then (p.1.getD "", p.2, 0)
  else _body_inferred_encoding ext r p.2

/-- Embedding of the `text` property: force `encoding` first (which may
populate `_cached_ubody` as a side effect of body inference), then on a
cache miss decode via `html_to_unicode(f"charset={benc}", self.body)` (no
auto-detect function; w3lib's own UTF-8 default).  Returns the text, the
new state and the total number of `html_to_unicode` invocations. -/
def textOp (ext : Ext) (r : TextResponse) (s : TRState) :
    String × TRState × Nat :=
  let p := encodingOp ext r s
  match p.2.1.cached_ubody with
  | some u => (u, p.2.1, p.2.2)
  | none =>
    let u := (html_to_unicode ext ("charset=" ++ p.1) r.body none "utf-8").2
    (u, { p.2.1 with cached_ubody := some u }, p.2.2 + 1)

/-- The `MalformedJson` failure of `json()`: the `json.loads` exception
propagating to the caller. -/
inductive JsonError where
  | malformedJson : JsonError
deriving DecidableEq

/-- Embedding of `json()`: if `_cached_decoded_json` is the `_NONE`
sentinel, run `json.loads(self.body)`; a successful result is stored in
the cache, while an exception propagates leaving the cache untouched.
The third component counts `json.loads` invocations. -/
def jsonOp (ext : Ext) (r : TextResponse) (s : TRState) :
    Except JsonError JsonValue × TRState × Nat :=
  match s.cached_decoded_json with
  | some v => (Except.ok v, s, 0)
  | none =>
    match ext.json_loads r.body with
    | some v => (Except.ok v, { s with cached_decoded_json := some v }, 1)
    | none => (Except.error JsonError.malformedJson, s, 1)

/-- A single follow target as accepted by `TextResponse.follow`: a URL
string, a `scrapy.link.Link` (only its `url` field is consumed), or a
parsel `Selector`. -/
inductive FollowTarget where
  | strT : String → FollowTarget
  | linkT : String → FollowTarget
  | selT : PSelector → FollowTarget

/-- The outbound request descriptor as far as this core populates it: the
resolved absolute URL and the encoding passed to the `Request`
constructor.  The remaining `Request` parameters are forwarded opaquely. -/
structure RequestDescriptor where
  url : String
  encoding : String
deriving DecidableEq

/-- URL extraction from a follow target, as performed at the top of
`TextResponse.follow`: a `Selector` goes through `_url_from_selector`
(errors propagating), a string or `Link` contributes its URL directly. -/
def targetUrl : FollowTarget → Except InvalidSelector String
  | FollowTarget.strT u => Except.ok u
  | FollowTarget.linkT u => Except.ok u
  | FollowTarget.selT sel => _url_from_selector sel

/-- Embedding of `TextResponse.follow`: normalize the target (propagating
`_InvalidSelector` before anything else runs), default the encoding to
`self.encoding` exactly when the caller passed `None`, then build the
request with the URL joined against the effective base URL (the base
`Response.follow` / `Request` construction is outside src/ and modelled
from the spec's FollowRequestBuilder).  The third component counts
`html_to_unicode` invocations made while resolving the default encoding. -/
def followOp (ext : Ext) (r : TextResponse) (s : TRState)
    (target : FollowTarget) (enc : Option String) :
    Except InvalidSelector RequestDescriptor × TRState × Nat :=
  match targetUrl target with
  | Except.error e => (Except.error e, s, 0)
  | Except.ok u =>
    let q :=
      match enc with
      | none => encodingOp ext r s
      | some e => (e, s, 0)
    (Except.ok
      { url := ext.urljoin (ext.getBaseUrl r.url r.body) u, encoding := q.1 },
      q.2.1, q.2.2)

/-- The `urls` argument of `follow_all`: either an iterable of plain
targets (strings / `Link`s / `Selector`s) or a parsel `SelectorList`. -/
inductive UrlsArg where
  | targetsArg : List FollowTarget → UrlsArg
  | selectorsArg : List PSelector → UrlsArg

/-- Python truthiness of the optional `urls` argument: `None` and empty
collections are falsy. -/
def pyTruthyUrls : Option UrlsArg → Bool
  | none => false
  | some (UrlsArg.targetsArg ts) => !ts.isEmpty
  | some (UrlsArg.selectorsArg sels) => !sels.isEmpty

/-- Failures of `follow_all`: the eager exactly-one-source `ValueError`, a
propagated `_InvalidSelector` from an explicit target, or the base-class
rejection of a non-iterable `urls` value (outside src/, modelled from the
spec). -/
inductive FollowAllError where
  | ambiguousSource : String → FollowAllError
  | invalidTarget : InvalidSelector → FollowAllError
  | badUrlsArg : FollowAllError

/-- The exact message of the exactly-one-source `ValueError`. -/
def supplyMsg : String :=
  "Please supply exactly one of the following arguments: urls, css, xpath"

/-- Modelled from the spec: the base `Response.follow_all` is not under
src/; per the spec's bulk build it produces one request per target by the
single-target build, propagating its failures.  State is threaded so the
first request may resolve and cache the default encoding. -/
def buildAll (ext : Ext) (r : TextResponse) (s : TRState)
    (ts : List FollowTarget) (enc : Option String) :
    Except InvalidSelector (List RequestDescriptor) × TRState :=
  match ts with
  | [] => (Except.ok [], s)
  | t :: rest =>
    match followOp ext r s t enc with
    | (Except.error e, s1, _) => (Except.error e, s1)
    | (Except.ok req, s1, _) =>
      match buildAll ext r s1 rest enc with
      | (Except.ok reqs, s2) => (Except.ok (req :: reqs), s2)
      | (Except.error e, s2) => (Except.error e, s2)

/-- Embedding of `TextResponse.follow_all`: first the eager count of
non-`None` members of `(urls, css, xpath)`, raising the exactly-one
`ValueError` before anything else; then, when `urls` is falsy, a truthy
`css`/`xpath` query is run to obtain a `SelectorList`; a `SelectorList` is
converted to URL strings with per-item `_InvalidSelector` failures
suppressed; finally the bulk build runs over the surviving targets.  The
third component counts `_url_from_selector` normalization attempts. -/
def follow_allOp (ext : Ext) (r : TextResponse) (s : TRState)
    (urls : Option UrlsArg) (css : Option String) (xpath : Option String)
    (enc : Option String) :
    Except FollowAllError (List RequestDescriptor) × TRState × Nat :=
  let argCount := (if urls.isSome then 1 else 0) + (if css.isSome then 1 else 0)
    + (if xpath.isSome then 1 else 0)
  if argCount ≠ 1 then
    (Except.error (FollowAllError.ambiguousSource supplyMsg), s, 0)
  else
    let urls1 :=
      if pyTruthyUrls urls then urls
      else
        let u1 := if pyTruthy css then
            some (UrlsArg.selectorsArg (ext.cssQuery (css.getD ""))) else urls
        if pyTruthy xpath then
          some (UrlsArg.selectorsArg (ext.xpathQuery (xpath.getD ""))) else u1
    match urls1 with
    | none => (Except.error FollowAllError.badUrlsArg, s, 0)
    | some (UrlsArg.selectorsArg sels) =>
      let strs := sels.filterMap (fun sel => (_url_from_selector sel).toOption)
      let p := buildAll ext r s (strs.map FollowTarget.strT) enc
      (p.1.mapError FollowAllError.invalidTarget, p.2, sels.length)
    | some (UrlsArg.targetsArg ts) =>
      let p := buildAll ext r s ts enc
      (p.1.mapError FollowAllError.invalidTarget, p.2, 0)

/-- The `body` argument of response construction: a unicode string, raw
bytes, or `None`. -/
inductive BodyArg where
  | strBody : String → BodyArg
  | bytesBody : Bytes → BodyArg
  | noneBody : BodyArg

/-- The exact message of the unicode-body `TypeError`. -/
def unicodeBodyMsg : String :=
  "Cannot convert unicode body - TextResponse has no encoding"

/-- Embedding of `TextResponse._set_body`: a unicode string body with
`self._encoding is None` raises `TypeError` (the body slot still holds the
initial `b""`); with an encoding it is stored as the string encoded with
that encoding; bytes and `None` go to the base class (outside src/,
modelled from the spec's RawBody: bytes stored as-is, `None` as empty). -/
def _set_body (ext : Ext) (encodingArg : Option String) (b : BodyArg) :
    Except String Bytes :=
  match b with
  | BodyArg.strBody s =>
    match encodingArg with
    | none => Except.error unicodeBodyMsg
    | some e => Except.ok (ext.pyEncode e s)
  | BodyArg.bytesBody bs => Except.ok bs
  | BodyArg.noneBody => Except.ok []

/-- A trivial instantiation of the external collaborators, used to
evaluate the embedded operations on concrete inputs. -/
def extTriv : Ext :=
  { read_bom := fun _ => none
    http_content_type_encoding := fun _ => none
    html_body_declared_encoding := fun _ => none
    resolve_encoding := fun e => some e
    decodes := fun _ _ => true
    strictDecode := fun _ _ => "body"
    lossyDecode := fun _ _ => "lossy"
    json_loads := fun _ => some JsonValue.null
    pyEncode := fun _ _ => [120]
    latin1Decode := fun _ => ""
    getBaseUrl := fun u _ => u
    urljoin := fun _ u => u
    cssQuery := fun _ => []
    xpathQuery := fun _ => [] }

/-- A concrete response with no override and a one-byte body. -/
def rTriv : TextResponse :=
  { url := "https://example.test/", encodingArg := none,
    contentTypeHeader := none, body := [123] }

/-- External collaborators whose JSON deserializer always raises,
standing for any body that is not valid JSON. -/
def extJNone : Ext := { extTriv with json_loads := fun _ => none }

/-- External collaborators detecting a UTF-16-BE byte-order mark. -/
def extBom16 : Ext := { extTriv with read_bom := fun _ => some "utf-16-be" }

/-- A response constructed with `encoding=""` (an explicit, empty override)
and a bytes body starting with a UTF-16-BE BOM. -/
def rEmptyOv : TextResponse :=
  { url := "https://example.test/", encodingArg := some "",
    contentTypeHeader := none, body := [254, 255] }

/-- A response constructed with an explicit `encoding="utf-8"` override. -/
def rOvUtf8 : TextResponse := { rTriv with encodingArg := some "utf-8" }

/-- A selector whose root object exposes no tag name. -/
def selNoTag : PSelector :=
  { root := SelRoot.elemRoot none [], render := "sel0" }

/-- A selector over a `<span>` element. -/
def selSpan : PSelector :=
  { root := SelRoot.elemRoot (some "span") [], render := "sel1" }

/-- A selector over an `<a>` element with no `href` attribute. -/
def selANoHref : PSelector :=
  { root := SelRoot.elemRoot (some "a") [("class", "x")], render := "sel2" }

/-- A selector whose root is a plain string with surrounding whitespace,
as produced by an attribute extraction. -/
def selStrWS : PSelector :=
  { root := SelRoot.strRoot " /x\t", render := "sel3" }

/-- A selector over an `<a>` element whose `href` carries whitespace. -/
def selAHrefWS : PSelector :=
  { root := SelRoot.elemRoot (some "a") [("href", " /y ")], render := "sel4" }

/-- A selector over a `<div>` element, an invalid follow source. -/
def selDiv : PSelector :=
  { root := SelRoot.elemRoot (some "div") [], render := "sel5" }

/-- A valid `<a href="/p1">` selector. -/
def selA1 : PSelector :=
  { root := SelRoot.elemRoot (some "a") [("href", "/p1")], render := "sel6" }

/-- A valid `<a href="/p2">` selector. -/
def selA2 : PSelector :=
  { root := SelRoot.elemRoot (some "a") [("href", "/p2")], render := "sel7" }

/-- External collaborators whose CSS query returns three elements, one of
which is a `<div>`. -/
def extQ3 : Ext := { extTriv with cssQuery := fun _ => [selA1, selDiv, selA2] }

/-- External collaborators for which no candidate encoding decodes the
body cleanly. -/
def extNoDec : Ext :=
  { extTriv with decodes := fun _ _ => false, lossyDecode := fun _ _ => "?" }

/-- Claim C10: constructing a response with a unicode-string body and no
explicit encoding raises `TypeError` and stores no body, while a
unicode-string body together with an explicit encoding stores exactly the
string encoded with that encoding. -/
theorem set_body_unicode (ext : Ext) (s : String) (e : String) :
    _set_body ext none (BodyArg.strBody s) = Except.error unicodeBodyMsg ∧
    _set_body ext (some e) (BodyArg.strBody s) =
      Except.ok (ext.pyEncode e s) :=
  ⟨rfl, rfl⟩

/-- Claim C5: a non-string markup handle with no tag name fails with
`UnsupportedSelector`; a tag other than `a`/`link` fails with
`UnsupportedTag`, the message containing the offending tag name; an
`a`/`link` element without `href` fails with `MissingHref`, the message
containing the handle's rendering. -/
theorem url_from_selector_error_cases (sel : PSelector) :
    (∀ attrs, sel.root = SelRoot.elemRoot none attrs →
      _url_from_selector sel = Except.error (InvalidSelector.unsupportedSelector
        ("Unsupported selector: " ++ sel.render))) ∧
    (∀ t attrs, sel.root = SelRoot.elemRoot (some t) attrs →
      t ≠ "a" → t ≠ "link" →
      ∃ p q, _url_from_selector sel =
        Except.error (InvalidSelector.unsupportedTag (p ++ t ++ q))) ∧
    (∀ t attrs, sel.root = SelRoot.elemRoot (some t) attrs →
      (t = "a" ∨ t = "link") → attrs.lookup "href" = none →
      ∃ p, _url_from_selector sel =
        Except.error (InvalidSelector.missingHref (p ++ sel.render))) := by
  refine ⟨?_, ?_, ?_⟩
  · intro attrs h
    simp [_url_from_selector, h]
  · intro t attrs h ha hl
    refine ⟨"Only <a> and <link> elements are supported; got <", ">", ?_⟩
    simp [_url_from_selector, h, ha, hl]
  · intro t attrs h htag hhref
    refine ⟨"<" ++ t ++ "> element has no href attribute: ", ?_⟩
    simp [_url_from_selector, h, htag, hhref]

/-- Claim C5 witness: the three failure modes at concrete selectors. -/
theorem url_from_selector_error_cases_witness :
    _url_from_selector selNoTag = Except.error
      (InvalidSelector.unsupportedSelector ("Unsupported selector: " ++ "sel0")) ∧
    (∃ p q, _url_from_selector selSpan =
      Except.error (InvalidSelector.unsupportedTag (p ++ "span" ++ q))) ∧
    (∃ p, _url_from_selector selANoHref =
      Except.error (InvalidSelector.missingHref (p ++ "sel2"))) := by
  refine ⟨?_, ?_, ?_⟩
  · exact (url_from_selector_error_cases selNoTag).1 [] rfl
  · exact (url_from_selector_error_cases selSpan).2.1 "span" [] rfl
      (by decide) (by decide)
  · have h := (url_from_selector_error_cases selANoHref).2.2 "a"
      [("class", "x")] rfl (Or.inl rfl) rfl
    exact h

/-- Claim C8: normalization of a valid follow target returns the trimmed
URL: a plain string root is trimmed and returned (the attribute-extraction
case, treated like the string variant), and a valid `a`/`link` element
yields its trimmed `href` value. -/
theorem url_from_selector_ok_cases (sel : PSelector) :
    (∀ s0, sel.root = SelRoot.strRoot s0 →
      _url_from_selector sel = Except.ok (strip_html5_whitespace s0)) ∧
    (∀ t attrs href, sel.root = SelRoot.elemRoot (some t) attrs →
      (t = "a" ∨ t = "link") → attrs.lookup "href" = some href →
      _url_from_selector sel = Except.ok (strip_html5_whitespace href)) := by
  constructor
  · intro s0 h
    simp [_url_from_selector, h]
  · intro t attrs href h htag hhref
    simp [_url_from_selector, h, htag, hhref]

/-- Claim C8 witness: a whitespace-laden attribute-string selector and a
whitespace-laden `href` both come back trimmed. -/
theorem url_from_selector_ok_cases_witness :
    _url_from_selector selStrWS = Except.ok "/x" ∧
    _url_from_selector selAHrefWS = Except.ok "/y" := by
  constructor
  · have h := (url_from_selector_ok_cases selStrWS).1 " /x\t" rfl
    rw [h]
    exact congrArg Except.ok (by decide)
  · have h := (url_from_selector_ok_cases selAHrefWS).2 "a"
      [("href", " /y ")] " /y " rfl (Or.inl rfl) rfl
    rw [h]
    exact congrArg Except.ok (by decide)

/-- Claim C9: for a single-target follow whose target normalizes
successfully, passing no encoding defaults the built request's encoding to
the response's own resolved encoding, while a supplied encoding is used
verbatim. -/
theorem follow_encoding_default (ext : Ext) (r : TextResponse) (s : TRState)
    (t : FollowTarget) (u : String) (e : String)
    (h : targetUrl t = Except.ok u) :
    (followOp ext r s t none).1 = Except.ok
      { url := ext.urljoin (ext.getBaseUrl r.url r.body) u,
        encoding := (encodingOp ext r s).1 } ∧
    (followOp ext r s t (some e)).1 = Except.ok
      { url := ext.urljoin (ext.getBaseUrl r.url r.body) u, encoding := e } := by
  constructor
  · simp [followOp, h]
  · simp [followOp, h]

/-- Claim C9 witness: a concrete string target built with and without a
caller-supplied encoding. -/
theorem follow_encoding_default_witness :
    (followOp extTriv rTriv initState (FollowTarget.strT "/z") none).1 =
      Except.ok { url := "/z", encoding := (encodingOp extTriv rTriv initState).1 } ∧
    (followOp extTriv rTriv initState (FollowTarget.strT "/z") (some "latin-1")).1 =
      Except.ok { url := "/z", encoding := "latin-1" } :=
  follow_encoding_default extTriv rTriv initState (FollowTarget.strT "/z")
    "/z" "latin-1" rfl

/-- Claim C6: `follow_all` fails eagerly with the exactly-one-source
`ValueError` whenever the number of non-`None` members of
`(urls, css, xpath)` differs from one; no query runs, no normalization is
attempted (the attempt counter is zero) and the cache state is untouched,
so zero requests are built. -/
theorem follow_all_ambiguous (ext : Ext) (r : TextResponse) (s : TRState)
    (urls : Option UrlsArg) (css : Option String) (xpath : Option String)
    (enc : Option String)
    (h : (if urls.isSome then 1 else 0) + (if css.isSome then 1 else 0)
      + (if xpath.isSome then 1 else 0) ≠ 1) :
    follow_allOp ext r s urls css xpath enc =
      (Except.error (FollowAllError.ambiguousSource supplyMsg), s, 0) := by
  simp [follow_allOp, h]

/-- Claim C6 witness: supplying both `urls` and `css` fails with the
exactly-one-source error and zero normalization attempts. -/
theorem follow_all_ambiguous_witness :
    follow_allOp extTriv rTriv initState
      (some (UrlsArg.targetsArg [FollowTarget.strT "/a"])) (some "a") none none =
      (Except.error (FollowAllError.ambiguousSource supplyMsg), initState, 0) :=
  follow_all_ambiguous extTriv rTriv initState
    (some (UrlsArg.targetsArg [FollowTarget.strT "/a"])) (some "a") none none
    (by decide)

/-- Claim C1 counterexample: with a body that is not valid JSON, the first
`json()` call fails with `MalformedJson` but leaves the cache exactly as
it was (still the `_NONE` sentinel), and the second call performs another
`json.loads` attempt (its attempt counter is 1, not 0) — refuting the
claimed "attempted and failed" terminal cache state under which the decode
would not be re-attempted. -/
theorem json_cache_counterexample :
    (jsonOp extJNone rTriv initState).1 = Except.error JsonError.malformedJson ∧
    (jsonOp extJNone rTriv initState).2.1 = initState ∧
    (jsonOp extJNone rTriv ((jsonOp extJNone rTriv initState).2.1)).2.2 = 1 :=
  ⟨rfl, rfl, rfl⟩

/-- Claim C1 (amended): for a body that is not valid JSON, every `json()`
call fails with `MalformedJson` and leaves the cache empty, so the decode
is re-attempted (attempt counter 1) on each call; no terminal
"attempted and failed" state is ever stored. -/
theorem json_malformed_every_call (ext : Ext) (r : TextResponse) (s : TRState)
    (hb : ext.json_loads r.body = none) (hc : s.cached_decoded_json = none) :
    jsonOp ext r s = (Except.error JsonError.malformedJson, s, 1) := by
  unfold jsonOp
  rw [hc, hb]

/-- Claim C1 witness: the amended behaviour at a concrete malformed body. -/
theorem json_malformed_every_call_witness :
    jsonOp extJNone rTriv initState =
      (Except.error JsonError.malformedJson, initState, 1) :=
  json_malformed_every_call extJNone rTriv initState rfl rfl

/-- Bulk building over plain string targets always succeeds, producing one
request per target whose URL is the target joined against the effective
base URL. -/
theorem buildAll_strT_ok (ext : Ext) (r : TextResponse) (enc : Option String) :
    ∀ (strs : List String) (s : TRState),
      ∃ reqs s2,
        buildAll ext r s (strs.map FollowTarget.strT) enc = (Except.ok reqs, s2) ∧
        reqs.map RequestDescriptor.url =
          strs.map (fun u => ext.urljoin (ext.getBaseUrl r.url r.body) u) ∧
        reqs.length = strs.length := by
  intro strs
  induction strs with
  | nil => intro s; exact ⟨[], s, rfl, rfl, rfl⟩
  | cons u rest ih =>
    intro s
    rcases enc with _ | e
    · obtain ⟨reqs, s2, hb, hmap, hlen⟩ := ih (encodingOp ext r s).2.1
      refine ⟨⟨ext.urljoin (ext.getBaseUrl r.url r.body) u,
          (encodingOp ext r s).1⟩ :: reqs, s2, ?_, ?_, ?_⟩
      · simp only [List.map_cons, buildAll, followOp, targetUrl]
        rw [hb]
      · simp [hmap]
      · simp [hlen]
    · obtain ⟨reqs, s2, hb, hmap, hlen⟩ := ih s
      refine ⟨⟨ext.urljoin (ext.getBaseUrl r.url r.body) u, e⟩ :: reqs,
          s2, ?_, ?_, ?_⟩
      · simp only [List.map_cons, buildAll, followOp, targetUrl]
        rw [hb]
      · simp [hmap]
      · simp [hlen]

/-- Reduction of `follow_allOp` in the CSS-query configuration: with only
a truthy `css` argument supplied, the query result is normalized item by
item and bulk-built. -/
theorem follow_all_css_reduce (ext : Ext) (r : TextResponse) (s : TRState)
    (q : String) (enc : Option String) (hq : pyTruthy (some q) = true) :
    follow_allOp ext r s none (some q) none enc =
      ((buildAll ext r s
          (((ext.cssQuery q).filterMap
            (fun sel => (_url_from_selector sel).toOption)).map
            FollowTarget.strT) enc).1.mapError FollowAllError.invalidTarget,
        (buildAll ext r s
          (((ext.cssQuery q).filterMap
            (fun sel => (_url_from_selector sel).toOption)).map
            FollowTarget.strT) enc).2,
        (ext.cssQuery q).length) := by
  unfold follow_allOp
  rw [hq]
  rfl

/-- Reduction of `follow_allOp` in the XPath-query configuration. -/
theorem follow_all_xpath_reduce (ext : Ext) (r : TextResponse) (s : TRState)
    (q : String) (enc : Option String) (hq : pyTruthy (some q) = true) :
    follow_allOp ext r s none none (some q) enc =
      ((buildAll ext r s
          (((ext.xpathQuery q).filterMap
            (fun sel => (_url_from_selector sel).toOption)).map
            FollowTarget.strT) enc).1.mapError FollowAllError.invalidTarget,
        (buildAll ext r s
          (((ext.xpathQuery q).filterMap
            (fun sel => (_url_from_selector sel).toOption)).map
            FollowTarget.strT) enc).2,
        (ext.xpathQuery q).length) := by
  unfold follow_allOp
  rw [hq]
  rfl

/-- Claim C7: when `follow_all` is driven by a CSS or XPath query, every
selector returned by the query is normalized (the attempt counter equals
the query size), per-item failures are silently dropped, and the produced
requests are exactly the successfully normalized URLs in order — no error
propagates. -/
theorem follow_all_query_filters (ext : Ext) (r : TextResponse) (s : TRState)
    (enc : Option String) :
    (∀ q sels, q ≠ "" → ext.cssQuery q = sels →
      ∃ reqs s2, follow_allOp ext r s none (some q) none enc =
          (Except.ok reqs, s2, sels.length) ∧
        reqs.map RequestDescriptor.url =
          (sels.filterMap (fun sel => (_url_from_selector sel).toOption)).map
            (fun u => ext.urljoin (ext.getBaseUrl r.url r.body) u) ∧
        reqs.length =
          (sels.filterMap (fun sel => (_url_from_selector sel).toOption)).length) ∧
    (∀ q sels, q ≠ "" → ext.xpathQuery q = sels →
      ∃ reqs s2, follow_allOp ext r s none none (some q) enc =
          (Except.ok reqs, s2, sels.length) ∧
        reqs.map RequestDescriptor.url =
          (sels.filterMap (fun sel => (_url_from_selector sel).toOption)).map
            (fun u => ext.urljoin (ext.getBaseUrl r.url r.body) u) ∧
        reqs.length =
          (sels.filterMap (fun sel => (_url_from_selector sel).toOption)).length) := by
  constructor
  · intro q sels hq hcss
    obtain ⟨reqs, s2, hb, hmap, hlen⟩ := buildAll_strT_ok ext r enc
      (sels.filterMap (fun sel => (_url_from_selector sel).toOption)) s
    refine ⟨reqs, s2, ?_, hmap, hlen⟩
    rw [follow_all_css_reduce ext r s q enc (by simp [pyTruthy, hq]), hcss, hb]
    rfl
  · intro q sels hq hxp
    obtain ⟨reqs, s2, hb, hmap, hlen⟩ := buildAll_strT_ok ext r enc
      (sels.filterMap (fun sel => (_url_from_selector sel).toOption)) s
    refine ⟨reqs, s2, ?_, hmap, hlen⟩
    rw [follow_all_xpath_reduce ext r s q enc (by simp [pyTruthy, hq]), hxp, hb]
    rfl

/-- Claim C7 witness: a query returning three elements, one of which is a
`<div>`, yields exactly two requests with the invalid element dropped. -/
theorem follow_all_query_filters_witness :
    ∃ reqs s2, follow_allOp extQ3 rTriv initState none (some "a") none
        (some "utf-8") = (Except.ok reqs, s2, 3) ∧ reqs.length = 2 := by
  obtain ⟨reqs, s2, h1, h2, h3⟩ :=
    (follow_all_query_filters extQ3 rTriv initState (some "utf-8")).1 "a"
      [selA1, selDiv, selA2] (by decide) rfl
  refine ⟨reqs, s2, h1, ?_⟩
  rw [h3]
  decide

/-- Claim C2 counterexample: a response can be constructed with the
explicit encoding override `""` (a bytes body makes construction succeed),
yet `encoding` skips it — Python truthiness treats the empty string as
absent — and returns the BOM encoding instead of the supplied override. -/
theorem encoding_override_counterexample :
    rEmptyOv.encodingArg = some "" ∧
    (encodingOp extBom16 rEmptyOv initState).1 = "utf-16-be" ∧
    (encodingOp extBom16 rEmptyOv initState).1 ≠ "" :=
  ⟨rfl, rfl, by decide⟩

/-- Claim C2 (amended): a non-empty explicit override is returned
regardless of headers, BOM or body content (an empty-string override is
treated as unset); otherwise a non-empty BOM encoding wins over the
header charset, which wins over a non-empty in-body declaration, which
wins over auto-detection via body inference. -/
theorem encoding_priority_chain (ext : Ext) (r : TextResponse) :
    (∀ e, r.encodingArg = some e → e ≠ "" →
      (encodingOp ext r initState).1 = e) ∧
    (pyTruthy r.encodingArg = false →
      ∀ b, ext.read_bom r.body = some b → b ≠ "" →
        (encodingOp ext r initState).1 = b) ∧
    (pyTruthy r.encodingArg = false →
      pyTruthy (ext.read_bom r.body) = false →
      ∀ c, ext.http_content_type_encoding (ctString ext r) = some c → c ≠ "" →
        (encodingOp ext r initState).1 = c) ∧
    (pyTruthy r.encodingArg = false →
      pyTruthy (ext.read_bom r.body) = false →
      pyTruthy (ext.http_content_type_encoding (ctString ext r)) = false →
      ∀ d, ext.html_body_declared_encoding r.body = some d → d ≠ "" →
        (encodingOp ext r initState).1 = d) ∧
    (pyTruthy r.encodingArg = false →
      pyTruthy (ext.read_bom r.body) = false →
      pyTruthy (ext.http_content_type_encoding (ctString ext r)) = false →
      pyTruthy (ext.html_body_declared_encoding r.body) = false →
      (encodingOp ext r initState).1 =
        (html_to_unicode ext (ctString ext r) r.body
          (some (_auto_detect_fun ext)) _DEFAULT_ENCODING).1) := by
  refine ⟨?_, ?_, ?_, ?_, ?_⟩
  · intro e he hne
    have hpt : pyTruthy (some e) = true := by simp [pyTruthy, hne]
    simp [encodingOp, _declared_encoding, he, hpt]
  · intro h0 b hb hnb
    have hpt : pyTruthy (some b) = true := by simp [pyTruthy, hnb]
    simp [encodingOp, _declared_encoding, _bom_encoding, initState, h0, hb, hpt]
  · intro h0 h1 c hc hnc
    have hpt : pyTruthy (some c) = true := by simp [pyTruthy, hnc]
    simp [encodingOp, _declared_encoding, _bom_encoding, _headers_encoding,
      initState, h0, h1, hc, hpt]
  · intro h0 h1 h2 d hd hnd
    have hpt : pyTruthy (some d) = true := by simp [pyTruthy, hnd]
    simp [encodingOp, _declared_encoding, _bom_encoding, _headers_encoding,
      _body_declared_encoding, initState, h0, h1, h2, hd, hpt]
  · intro h0 h1 h2 h3
    simp [encodingOp, _declared_encoding, _bom_encoding, _headers_encoding,
      _body_declared_encoding, _body_inferred_encoding, initState,
      h0, h1, h2, h3]

/-- Claim C2 witness: a concrete non-empty override is returned. -/
theorem encoding_priority_chain_witness :
    (encodingOp extTriv rOvUtf8 initState).1 = "utf-8" :=
  (encoding_priority_chain extTriv rOvUtf8).1 "utf-8" rfl (by decide)

/-- Claim C3: `text` is idempotent — two calls from a fresh response return
the same string, the decode procedure (`html_to_unicode`) runs exactly once
on the first call and zero times on the second; and when the encoding comes
from body inference (no declared encoding), the resolver itself populates
the shared `_cached_ubody` slot with exactly the string `text` returns, so
`text` performs no decode of its own. -/
theorem text_idempotent_shared_cache (ext : Ext) (r : TextResponse) :
    (textOp ext r initState).1 =
      (textOp ext r (textOp ext r initState).2.1).1 ∧
    (textOp ext r initState).2.2 = 1 ∧
    (textOp ext r (textOp ext r initState).2.1).2.2 = 0 ∧
    (pyTruthy (_declared_encoding ext r initState).1 = false →
      (encodingOp ext r initState).2.1.cached_ubody =
        some (textOp ext r initState).1 ∧
      (textOp ext r initState).2.2 = (encodingOp ext r initState).2.2) := by
  cases h0 : pyTruthy r.encodingArg with
  | true =>
    simp [textOp, encodingOp, _declared_encoding, _bom_encoding,
      _headers_encoding, _body_declared_encoding, _body_inferred_encoding,
      initState, h0]
  | false =>
    cases h1 : pyTruthy (ext.read_bom r.body) with
    | true =>
      simp [textOp, encodingOp, _declared_encoding, _bom_encoding,
        _headers_encoding, _body_declared_encoding, _body_inferred_encoding,
        initState, h0, h1]
    | false =>
      cases h2 : pyTruthy (ext.http_content_type_encoding (ctString ext r)) with
      | true =>
        simp [textOp, encodingOp, _declared_encoding, _bom_encoding,
          _headers_encoding, _body_declared_encoding, _body_inferred_encoding,
          initState, h0, h1, h2]
      | false =>
        cases h3 : pyTruthy (ext.html_body_declared_encoding r.body) with
        | true =>
          simp [textOp, encodingOp, _declared_encoding, _bom_encoding,
            _headers_encoding, _body_declared_encoding, _body_inferred_encoding,
            initState, h0, h1, h2, h3]
        | false =>
          simp [textOp, encodingOp, _declared_encoding, _bom_encoding,
            _headers_encoding, _body_declared_encoding, _body_inferred_encoding,
            initState, h0, h1, h2, h3]

/-- Claim C3 witness: at a concrete response with no declared encoding, two
`text` calls agree and the resolver populated the shared cache slot. -/
theorem text_idempotent_shared_cache_witness :
    (textOp extTriv rTriv initState).1 =
      (textOp extTriv rTriv (textOp extTriv rTriv initState).2.1).1 ∧
    (encodingOp extTriv rTriv initState).2.1.cached_ubody =
      some (textOp extTriv rTriv initState).1 := by
  have h := text_idempotent_shared_cache extTriv rTriv
  exact ⟨h.1, (h.2.2.2 (by decide)).1⟩

/-- Claim C4: with no override, BOM, header charset or in-body declaration,
`_auto_detect_fun` tries the default encoding, then UTF-8, then cp1252, in
order, selecting (the canonical name of) the first that decodes without
error, and that selection becomes the resolved encoding; when all three
fail, auto-detection yields nothing and the default encoding is used anyway
with a lossy decode, so `encoding`/`text` still return values. -/
theorem auto_detect_fallback (ext : Ext) (r : TextResponse)
    (h0 : r.encodingArg = none) (h1 : ext.read_bom r.body = none)
    (h2 : ext.http_content_type_encoding (ctString ext r) = none)
    (h3 : ext.html_body_declared_encoding r.body = none) :
    (ext.decodes _DEFAULT_ENCODING r.body = true →
      _auto_detect_fun ext r.body = ext.resolve_encoding _DEFAULT_ENCODING ∧
      (encodingOp ext r initState).1 =
        (ext.resolve_encoding _DEFAULT_ENCODING).getD _DEFAULT_ENCODING) ∧
    (ext.decodes _DEFAULT_ENCODING r.body = false →
      ext.decodes "utf-8" r.body = true →
      _auto_detect_fun ext r.body = ext.resolve_encoding "utf-8" ∧
      (encodingOp ext r initState).1 =
        (ext.resolve_encoding "utf-8").getD _DEFAULT_ENCODING) ∧
    (ext.decodes _DEFAULT_ENCODING r.body = false →
      ext.decodes "utf-8" r.body = false →
      ext.decodes "cp1252" r.body = true →
      _auto_detect_fun ext r.body = ext.resolve_encoding "cp1252" ∧
      (encodingOp ext r initState).1 =
        (ext.resolve_encoding "cp1252").getD _DEFAULT_ENCODING) ∧
    (ext.decodes _DEFAULT_ENCODING r.body = false →
      ext.decodes "utf-8" r.body = false →
      ext.decodes "cp1252" r.body = false →
      _auto_detect_fun ext r.body = none ∧
      (encodingOp ext r initState).1 = _DEFAULT_ENCODING ∧
      (textOp ext r initState).1 = ext.lossyDecode _DEFAULT_ENCODING r.body) := by
  refine ⟨?_, ?_, ?_, ?_⟩
  · intro ha
    constructor
    · simp [_auto_detect_fun, ha]
    · simp [encodingOp, _declared_encoding, _bom_encoding, _headers_encoding,
        _body_declared_encoding, _body_inferred_encoding, html_to_unicode,
        _auto_detect_fun, oelse, initState, h0, h1, h2, h3, ha, pyTruthy]
  · intro ha hu
    constructor
    · simp [_auto_detect_fun, ha, hu]
    · simp [encodingOp, _declared_encoding, _bom_encoding, _headers_encoding,
        _body_declared_encoding, _body_inferred_encoding, html_to_unicode,
        _auto_detect_fun, oelse, initState, h0, h1, h2, h3, ha, hu, pyTruthy]
  · intro ha hu hc
    constructor
    · simp [_auto_detect_fun, ha, hu, hc]
    · simp [encodingOp, _declared_encoding, _bom_encoding, _headers_encoding,
        _body_declared_encoding, _body_inferred_encoding, html_to_unicode,
        _auto_detect_fun, oelse, initState, h0, h1, h2, h3, ha, hu, hc,
        pyTruthy]
  · intro ha hu hc
    refine ⟨by simp [_auto_detect_fun, ha, hu, hc], ?_, ?_⟩
    · simp [encodingOp, _declared_encoding, _bom_encoding, _headers_encoding,
        _body_declared_encoding, _body_inferred_encoding, html_to_unicode,
        _auto_detect_fun, oelse, initState, h0, h1, h2, h3, ha, hu, hc,
        pyTruthy]
    · simp [textOp, encodingOp, _declared_encoding, _bom_encoding,
        _headers_encoding, _body_declared_encoding, _body_inferred_encoding,
        html_to_unicode, _auto_detect_fun, oelse, initState, h0, h1, h2, h3,
        ha, hu, hc, pyTruthy]

/-- Claim C4 witness: with every candidate decode failing, auto-detection
yields nothing, the encoding degrades to the default and `text` returns
the lossy decode rather than failing. -/
theorem auto_detect_fallback_witness :
    _auto_detect_fun extNoDec rTriv.body = none ∧
    (encodingOp extNoDec rTriv initState).1 = _DEFAULT_ENCODING ∧
    (textOp extNoDec rTriv initState).1 = "?" := by
  have h := (auto_detect_fallback extNoDec rTriv rfl rfl rfl rfl).2.2.2
    rfl rfl rfl
  exact ⟨h.1, h.2.1, h.2.2⟩

end ScrapyText
